import Mathlib

/-!
Verification of the desktop-entry launch core (`src/exec/mod.rs`) of the
`dexrs` repository: exec-string tokenization and field-code classification,
field-code substitution, terminal detection, and the launch dispatcher.
Rust strings are modelled as Lean `String`, machine side effects (environment
variables, filesystem symlinks, session-bus reachability, GPU enumeration)
as explicit record parameters.
-/

/-- Error type of the launch core. The variants `MissingExecKey`,
`DeprecatedFieldCode`, `UnknownFieldCode`, `UnmatchedQuote`, `EmptyExecString`
and `NonZeroStatusCode` are constructed in `src/exec/mod.rs`; the remaining
variants (`ActionNotFound`, `ActionExecKeyNotFound`, `MissingShellEnvironment`,
`IoError`) live in `exec/error.rs`, which is not part of the sources, and are
modelled from the spec (section 7, Error kinds). -/
inductive ExecError where
  | MissingExecKey (path : String)
  | ActionNotFound (action : String) (path : String)
  | ActionExecKeyNotFound (action : String)
  | DeprecatedFieldCode (token : String)
  | UnknownFieldCode (token : String)
  | UnmatchedQuote (exec : String)
  | EmptyExecString
  | MissingShellEnvironment
  | NonZeroStatusCode (status : Option Int) (exec : String)
  | IoError (message : String)
deriving DecidableEq, Repr

/-- Mirrors the Rust enum `ArgOrFieldCode<'a>`: one whitespace-delimited token
of the exec string, either a recognized field code or a literal argument. -/
inductive ArgOrFieldCode where
  | SingleFileName
  | FileList
  | SingleUrl
  | UrlList
  | IconKey
  | TranslatedName
  | DesktopFileLocation
  | Arg (arg : String)
deriving DecidableEq, Repr

/-- Mirrors Rust `str::starts_with(c: char)` for a single character. -/
def strStartsWithChar (s : String) (c : Char) : Bool :=
  match s.data with
  | [] => false
  | x :: _ => x = c

/-- Mirrors `ArgOrFieldCode::try_from(&str)` in `src/exec/mod.rs`: the ordered
match classifying one token, with deprecated and unknown field codes rejected. -/
def ArgOrFieldCode.tryFrom (value : String) : Except ExecError ArgOrFieldCode :=
  if value = "%f" then .ok .SingleFileName
  else if value = "%F" then .ok .FileList
  else if value = "%u" then .ok .SingleUrl
  else if value = "%U" then .ok .UrlList
  else if value = "%i" then .ok .IconKey
  else if value = "%c" then .ok .TranslatedName
  else if value = "%k" then .ok .DesktopFileLocation
  else if value = "%d" ∨ value = "%D" ∨ value = "%n" ∨ value = "%N" ∨
          value = "%v" ∨ value = "%m" then .error (.DeprecatedFieldCode value)
  else if strStartsWithChar value '%' then .error (.UnknownFieldCode value)
  else .ok (.Arg value)

/-- The six deprecated field codes of the desktop-entry specification,
exactly the tokens of the deprecated arm of `ArgOrFieldCode::try_from`. -/
def deprecatedCodes : List String := ["%d", "%D", "%n", "%N", "%v", "%m"]

/-- The seven recognized field codes together with the six deprecated ones:
every token classified other than through the catch-all arms. -/
def specialCodes : List String :=
  ["%f", "%F", "%u", "%U", "%i", "%c", "%k"] ++ deprecatedCodes

/-- C1: classification maps %f to SingleFileName, %F to FileList, %u to
SingleUrl, %U to UrlList, %i to IconKey, %c to TranslatedName, %k to
DesktopFileLocation; each deprecated code %d %D %n %N %v %m fails with a
deprecated-field-code error carrying that token; any other token starting
with '%' fails with an unknown-field-code error carrying that token; and
every token not starting with '%' is classified as a literal argument equal
to the token unchanged. -/
theorem classification_of_tokens :
    (ArgOrFieldCode.tryFrom "%f" = .ok .SingleFileName ∧
     ArgOrFieldCode.tryFrom "%F" = .ok .FileList ∧
     ArgOrFieldCode.tryFrom "%u" = .ok .SingleUrl ∧
     ArgOrFieldCode.tryFrom "%U" = .ok .UrlList ∧
     ArgOrFieldCode.tryFrom "%i" = .ok .IconKey ∧
     ArgOrFieldCode.tryFrom "%c" = .ok .TranslatedName ∧
     ArgOrFieldCode.tryFrom "%k" = .ok .DesktopFileLocation) ∧
    (∀ t : String, t ∈ deprecatedCodes →
      ArgOrFieldCode.tryFrom t = .error (.DeprecatedFieldCode t)) ∧
    (∀ t : String, strStartsWithChar t '%' = true → t ∉ specialCodes →
      ArgOrFieldCode.tryFrom t = .error (.UnknownFieldCode t)) ∧
    (∀ t : String, strStartsWithChar t '%' = false →
      ArgOrFieldCode.tryFrom t = .ok (.Arg t)) := by
  refine ⟨by repeat constructor, ?_, ?_, ?_⟩
  · intro t ht
    simp only [deprecatedCodes, List.mem_cons, List.not_mem_nil, or_false] at ht
    rcases ht with h | h | h | h | h | h <;> subst h <;> rfl
  · intro t hpc hns
    simp only [specialCodes, deprecatedCodes, List.mem_append, List.mem_cons,
      List.not_mem_nil, or_false, not_or] at hns
    obtain ⟨⟨h1, h2, h3, h4, h5, h6, h7⟩, h8, h9, h10, h11, h12, h13⟩ := hns
    simp only [ArgOrFieldCode.tryFrom, h1, h2, h3, h4, h5, h6, h7, h8, h9, h10,
      h11, h12, h13, hpc, if_false, if_true, or_self, or_false, false_or]
  · intro t hpc
    have hne : ∀ u : String, u ∈ specialCodes → t ≠ u := by
      intro u hu he
      subst he
      simp only [specialCodes, deprecatedCodes, List.mem_append, List.mem_cons,
        List.not_mem_nil, or_false] at hu
      rcases hu with (h | h | h | h | h | h | h) | h | h | h | h | h | h <;>
        subst h <;> exact absurd hpc (by decide)
    simp only [ArgOrFieldCode.tryFrom, hpc,
      hne "%f" (by decide), hne "%F" (by decide), hne "%u" (by decide),
      hne "%U" (by decide), hne "%i" (by decide), hne "%c" (by decide),
      hne "%k" (by decide), hne "%d" (by decide), hne "%D" (by decide),
      hne "%n" (by decide), hne "%N" (by decide), hne "%v" (by decide),
      hne "%m" (by decide), if_false, or_self, or_false, false_or,
      Bool.false_eq_true]

/-- Witness for C1: the quantified clauses evaluated at the concrete tokens
"%d", "%z" and "app". -/
theorem classification_of_tokens_witness :
    ArgOrFieldCode.tryFrom "%d" = .error (.DeprecatedFieldCode "%d") ∧
    ArgOrFieldCode.tryFrom "%z" = .error (.UnknownFieldCode "%z") ∧
    ArgOrFieldCode.tryFrom "app" = .ok (.Arg "app") :=
  ⟨classification_of_tokens.2.1 "%d" (by decide),
   classification_of_tokens.2.2.1 "%z" (by decide) (by decide),
   classification_of_tokens.2.2.2 "app" (by decide)⟩

/-- View of a parsed desktop entry, as consumed by the launch core (spec
section 6, Input contract). `path` is the entry file's own location (the Rust
field `self.path`); `name` models the locale-keyed accessor
`name(locale: Option<&str>)`; `workingDirectory` models the `path()` accessor
(the entry's declared working directory); `actions` is the raw
semicolon-separated `actions()` value; `actionExec` models
`action_exec(name)`; `busActionable` models `is_bus_actionable(&conn)`, whose
body lives in `exec/dbus.rs` outside the sources and is therefore an abstract
boolean capability here. -/
structure DesktopEntry where
  path : String
  exec : Option String
  icon : Option String
  name : Option String → Option String
  terminal : Bool
  workingDirectory : Option String
  actions : Option String
  actionExec : String → Option String
  busActionable : Bool

/-- One GPU as seen by the launch core. Modelled from the spec: section 4.4,
`Gpu::launch_options() -> sequence of (name, value) environment pairs`
(`exec/graphics.rs` is not part of the sources). -/
structure Gpu where
  launchOptions : List (String × String)

/-- The GPU enumeration consumed by `with_non_default_gpu`. Modelled from the
spec: section 4.4, `is_switchable()`, `non_default()`, `get_default()`
(`exec/graphics.rs` is not part of the sources). -/
structure Gpus where
  isSwitchable : Bool
  nonDefault : Option Gpu
  getDefault : Option Gpu

/-- Filesystem facts consulted by `detect_terminal`: `read_link` results and
path existence. -/
structure Fs where
  readLink : String → Option String
  pathExists : String → Bool

/-- Machine state a launch call reads: the `SHELL` and `LANG` environment
variables, whether `Connection::session()` succeeds, the filesystem, and the
GPU enumeration `Gpus::load()` would return. -/
structure Env where
  shell : Option String
  lang : Option String
  busReachable : Bool
  fs : Fs
  gpus : Gpus

/-- A process about to be spawned: Rust `Command::new(program)` plus its
argument list, extra environment pairs added with `env`, and the working
directory, which `std::process::Command` leaves unset (inherited) unless
`current_dir` is called. -/
structure SpawnCmd where
  program : String
  args : List String
  extraEnv : List (String × String)
  cwd : Option String
deriving DecidableEq, Repr

/-- Mirrors Rust `str::split_once(c)`: the pieces before and after the first
occurrence of `c`, or none when `c` does not occur. -/
def splitOnce (s : String) (c : Char) : Option (String × String) :=
  if s.data.contains c then
    some (String.mk (s.data.takeWhile (fun x => x != c)),
          String.mk ((s.data.dropWhile (fun x => x != c)).drop 1))
  else none

/-- Substitution for one classified token: the match inside the `filter_map`
of `DesktopEntry::get_args` in `src/exec/mod.rs`. -/
def substArg (e : DesktopEntry) (env : Env) (uris : List String) :
    ArgOrFieldCode → Option String
  | .SingleFileName | .SingleUrl => uris.head?
  | .FileList | .UrlList =>
      if !uris.isEmpty then some (String.intercalate " " uris) else none
  | .IconKey => e.icon
  | .TranslatedName =>
      match env.lang with
      | some locale => e.name ((splitOnce locale '.').map Prod.fst)
      | none => none
  | .DesktopFileLocation => some e.path
  | .Arg arg => some arg

/-- Mirrors `DesktopEntry::get_args` in `src/exec/mod.rs`: replace field codes
with their values, dropping codes that have no applicable substitution. -/
def getArgs (e : DesktopEntry) (env : Env) (uris : List String)
    (execArgs : List ArgOrFieldCode) : List String :=
  execArgs.filterMap (substArg e env uris)

/-- C2: substitution replaces each SingleFileName or SingleUrl token with the
first element of the URI list when the list is non-empty and drops the token
when it is empty; replaces each FileList or UrlList token with all URI-list
elements joined by single spaces as one combined argument when the list is
non-empty and drops it when empty; and output elements keep the relative
order of their source tokens (substitution maps tokens independently, in
order, via the append homomorphism below). -/
theorem substitution_of_uri_codes :
    ∀ (e : DesktopEntry) (env : Env) (uris : List String),
    (∀ xs ys : List ArgOrFieldCode,
       getArgs e env uris (xs ++ ys) =
         getArgs e env uris xs ++ getArgs e env uris ys) ∧
    (uris = [] →
       getArgs e env uris [.SingleFileName] = [] ∧
       getArgs e env uris [.SingleUrl] = [] ∧
       getArgs e env uris [.FileList] = [] ∧
       getArgs e env uris [.UrlList] = []) ∧
    (∀ (u : String) (rest : List String), uris = u :: rest →
       getArgs e env uris [.SingleFileName] = [u] ∧
       getArgs e env uris [.SingleUrl] = [u] ∧
       getArgs e env uris [.FileList] = [String.intercalate " " uris] ∧
       getArgs e env uris [.UrlList] = [String.intercalate " " uris]) := by
  intro e env uris
  refine ⟨fun xs ys => List.filterMap_append _ _ _, ?_, ?_⟩
  · rintro rfl
    refine ⟨rfl, rfl, rfl, rfl⟩
  · rintro u rest rfl
    refine ⟨rfl, rfl, rfl, rfl⟩

/-- Witness for C2: the clauses evaluated at a concrete entry, environment and
URI lists. -/
theorem substitution_of_uri_codes_witness :
    getArgs ⟨"/e.desktop", none, none, fun _ => none, false, none, none,
             fun _ => none, false⟩
            ⟨none, none, false, ⟨fun _ => none, fun _ => false⟩,
             ⟨false, none, none⟩⟩
            ["a", "b"]
            ([.SingleFileName] ++ [.UrlList]) = ["a", "a b"] ∧
    getArgs ⟨"/e.desktop", none, none, fun _ => none, false, none, none,
             fun _ => none, false⟩
            ⟨none, none, false, ⟨fun _ => none, fun _ => false⟩,
             ⟨false, none, none⟩⟩
            []
            [.FileList] = [] := by
  constructor
  · rw [(substitution_of_uri_codes _ _ ["a", "b"]).1 [.SingleFileName] [.UrlList]]
    rw [((substitution_of_uri_codes _ _ ["a", "b"]).2.2 "a" ["b"] rfl).1,
        ((substitution_of_uri_codes _ _ ["a", "b"]).2.2 "a" ["b"] rfl).2.2.2]
    rfl
  · exact ((substitution_of_uri_codes _ _ []).2.1 rfl).2.2.1

/-- Concrete entry for the C8 counterexample: its name table has a
translation exactly for locale "en_US" and nothing else. -/
def entryC8 : DesktopEntry :=
  ⟨"/e.desktop", some "%c", none,
   fun loc => if loc = some "en_US" then some "Translated" else none,
   false, none, none, fun _ => none, false⟩

/-- Concrete environment for the C8 counterexample: `LANG` is set to
"en_US", which contains no '.' encoding suffix. -/
def envC8 : Env :=
  ⟨some "/bin/sh", some "en_US", false, ⟨fun _ => none, fun _ => false⟩,
   ⟨false, none, none⟩⟩

/-- Counterexample to C8 as stated: with `LANG = "en_US"` (no '.' suffix, so
removing the suffix leaves the locale "en_US") and an entry that does have a
translation for locale "en_US", the code still drops the TranslatedName
token, because `split_once('.')` yields `None` when no '.' occurs and the
lookup is made with no locale at all rather than with "en_US". -/
theorem translated_name_locale_counterexample :
    envC8.lang = some "en_US" ∧
    entryC8.name (some "en_US") = some "Translated" ∧
    getArgs entryC8 envC8 [] [.TranslatedName] = [] :=
  ⟨rfl, rfl, rfl⟩

/-- C8 amended: for a TranslatedName token, when `LANG` is unset the token is
dropped; when `LANG` is set and contains a '.', the name is looked up with
the locale prefix before the first '.'; when `LANG` is set but contains no
'.', the name is looked up with no locale at all (not with the full `LANG`
value); in each lookup case the token is dropped exactly when the lookup
returns nothing, else replaced by the looked-up name. -/
theorem translated_name_lookup :
    ∀ (e : DesktopEntry) (env : Env) (uris : List String),
    (env.lang = none → getArgs e env uris [.TranslatedName] = []) ∧
    (∀ l : String, env.lang = some l → l.data.contains '.' = false →
       getArgs e env uris [.TranslatedName] = (e.name none).toList) ∧
    (∀ l : String, env.lang = some l → l.data.contains '.' = true →
       getArgs e env uris [.TranslatedName] =
         (e.name (some (String.mk (l.data.takeWhile (fun x => x != '.'))))).toList) := by
  intro e env uris
  refine ⟨?_, ?_, ?_⟩
  · intro h
    simp [getArgs, List.filterMap, substArg, h]
  · intro l hl hdot
    simp only [getArgs, List.filterMap, substArg, hl, splitOnce, hdot,
      Bool.false_eq_true, if_false, Option.map_none']
    cases e.name none <;> rfl
  · intro l hl hdot
    simp only [getArgs, List.filterMap, substArg, hl, splitOnce, hdot,
      if_true, Option.map_some']
    cases e.name (some (String.mk (l.data.takeWhile (fun x => x != '.')))) <;> rfl

/-- Witness for C8 amended: the three clauses evaluated at the concrete entry
and environment of the counterexample and at a `LANG` value with a suffix. -/
theorem translated_name_lookup_witness :
    getArgs entryC8 envC8 [] [.TranslatedName] = (entryC8.name none).toList ∧
    getArgs entryC8 ⟨some "/bin/sh", some "en_US.UTF-8", false,
        ⟨fun _ => none, fun _ => false⟩, ⟨false, none, none⟩⟩ []
        [.TranslatedName] =
      (entryC8.name (some (String.mk ("en_US.UTF-8".data.takeWhile
        (fun x => x != '.'))))).toList ∧
    getArgs entryC8 ⟨some "/bin/sh", none, false,
        ⟨fun _ => none, fun _ => false⟩, ⟨false, none, none⟩⟩ []
        [.TranslatedName] = [] :=
  ⟨(translated_name_lookup entryC8 envC8 []).2.1 "en_US" rfl (by decide),
   (translated_name_lookup entryC8 _ []).2.2 "en_US.UTF-8" rfl (by decide),
   (translated_name_lookup entryC8 _ []).1 rfl⟩

/-- Mirrors Rust `char::is_ascii_whitespace`: space, tab, newline, form feed,
carriage return. -/
def isAsciiWs (c : Char) : Bool :=
  c = ' ' || c = '\t' || c = '\n' || c = '\x0c' || c = '\r'

/-- Accumulator loop behind `splitAsciiWhitespace`: splits on runs of ASCII
whitespace, never producing empty tokens. -/
def splitAWGo : List Char → List Char → List String
  | [], acc => if acc.isEmpty then [] else [String.mk acc.reverse]
  | c :: cs, acc =>
      if isAsciiWs c then
        if acc.isEmpty then splitAWGo cs []
        else String.mk acc.reverse :: splitAWGo cs []
      else splitAWGo cs (c :: acc)

/-- Mirrors Rust `str::split_ascii_whitespace`: the whitespace-delimited
tokens of the string, with no empty tokens. -/
def splitAsciiWhitespace (s : String) : List String :=
  splitAWGo s.data []

/-- Mirrors the classification loop of `shell_launch`: `try_from` applied to
every token in order, stopping at the first error. -/
def classify : List String → Except ExecError (List ArgOrFieldCode)
  | [] => .ok []
  | t :: ts =>
      match ArgOrFieldCode.tryFrom t with
      | .error err => .error err
      | .ok a =>
          match classify ts with
          | .error err => .error err
          | .ok tailArgs => .ok (a :: tailArgs)

/-- Mirrors Rust `str::strip_prefix('"')`: the string without its first
character when that character is a double quote. -/
def stripQuoteFront (s : String) : Option String :=
  match s.data with
  | [] => none
  | c :: cs => if c = '"' then some (String.mk cs) else none

/-- Mirrors Rust `str::strip_suffix('"')`: the string without its last
character when that character is a double quote. -/
def stripQuoteBack (s : String) : Option String :=
  match s.data.reverse with
  | [] => none
  | c :: cs => if c = '"' then some (String.mk cs.reverse) else none

/-- Mirrors the quote-stripping step of `shell_launch`: a leading double
quote demands a trailing one (error `UnmatchedQuote` carrying the original
string otherwise); a string without a leading quote passes through. -/
def unquote (exec : String) : Except ExecError String :=
  match stripQuoteFront exec with
  | some unquotedExec =>
      match stripQuoteBack unquotedExec with
      | some s => .ok s
      | none => .error (.UnmatchedQuote exec)
  | none => .ok exec

/-- Mirrors Rust `str::contains(&str)`: some contiguous substring equals the
pattern. -/
def strContains (s pat : String) : Bool :=
  (List.range (s.data.length + 1)).any
    (fun i => pat.data.isPrefixOf (s.data.drop i))

/-- The symlink consulted first by `detect_terminal`. -/
def xTerminalEmulatorSymlink : String := "/usr/bin/x-terminal-emulator"

/-- Mirrors `detect_terminal` in `src/exec/mod.rs`: follow the
x-terminal-emulator symlink one further level when it resolves, choosing the
separator from the first resolution; otherwise fall back to gnome-terminal
when that path exists, else to konsole unconditionally. -/
def detectTerminal (fs : Fs) : String × String :=
  match fs.readLink xTerminalEmulatorSymlink with
  | some found =>
      let arg := if strContains found "gnome-terminal" then "--" else "-e"
      ((fs.readLink found).getD found, arg)
  | none =>
      if fs.pathExists "/usr/bin/gnome-terminal" then
        ("/usr/bin/gnome-terminal", "--")
      else
        ("/usr/bin/konsole", "-e")

/-- Mirrors `with_non_default_gpu` in `src/exec/mod.rs`, with the `Gpus` data
that `Gpus::load()` would produce passed explicitly: append the chosen GPU's
launch options to the command's environment, or leave it unchanged when no
GPU is available. -/
def withNonDefaultGpu (gpus : Gpus) (cmd : SpawnCmd) : SpawnCmd :=
  let gpu := if gpus.isSwitchable then gpus.nonDefault else gpus.getDefault
  match gpu with
  | some g => { cmd with extraEnv := cmd.extraEnv ++ g.launchOptions }
  | none => cmd

/-- Tail of `shell_launch` after quote stripping: classify the tokens,
substitute field codes, reject an empty result, read `SHELL`, optionally wrap
in the detected terminal, optionally add GPU environment variables, and
return the command handed to `spawn`. The spawned child's exit-status check
is modelled separately by `interpretStatus`, since it observes the running
child. -/
def runUnquoted (e : DesktopEntry) (env : Env) (exec : String)
    (uris : List String) (preferNonDefaultGpu : Bool) :
    Except ExecError SpawnCmd :=
  match classify (splitAsciiWhitespace exec) with
  | .error err => .error err
  | .ok execArgs =>
      let args := getArgs e env uris execArgs
      if args.isEmpty then .error .EmptyExecString
      else
        let joined := String.intercalate " " args
        match env.shell with
        | none => .error .MissingShellEnvironment
        | some shell =>
            let base : SpawnCmd :=
              if e.terminal then
                let td := detectTerminal env.fs
                { program := shell,
                  args := ["-c", td.1 ++ " " ++ td.2 ++ " " ++ joined],
                  extraEnv := [], cwd := none }
              else
                { program := shell, args := ["-c", joined],
                  extraEnv := [], cwd := none }
            .ok (if preferNonDefaultGpu then withNonDefaultGpu env.gpus base
                 else base)

/-- Body of `shell_launch` for a given exec template: strip one optional pair
of surrounding quotes, then run the rest of the pipeline. -/
def runExec (e : DesktopEntry) (env : Env) (exec : String)
    (uris : List String) (preferNonDefaultGpu : Bool) :
    Except ExecError SpawnCmd :=
  match unquote exec with
  | .error err => .error err
  | .ok stripped => runUnquoted e env stripped uris preferNonDefaultGpu

/-- Mirrors `DesktopEntry::shell_launch` in `src/exec/mod.rs` up to the
`spawn` call: a missing Exec key is an error, otherwise the exec template is
resolved to the spawned command. -/
def shellLaunch (e : DesktopEntry) (env : Env) (uris : List String)
    (preferNonDefaultGpu : Bool) : Except ExecError SpawnCmd :=
  match e.exec with
  | none => .error (.MissingExecKey e.path)
  | some exec => runExec e env exec uris preferNonDefaultGpu

/-- Mirrors the tail of `shell_launch` after `spawn`: a non-zero exit status
reported by the immediate `try_wait` check becomes `NonZeroStatusCode`
carrying the code and the (unquoted) exec string; a still-running child
(no status) or a zero status is success. -/
def interpretStatus (status : Option Int) (exec : String) :
    Except ExecError Unit :=
  match status with
  | some code => if code ≠ 0 then .error (.NonZeroStatusCode (some code) exec)
                 else .ok ()
  | none => .ok ()

/-- Result of a launch call: either the entry was activated over the session
bus with the given URIs, or a process spawn was requested with the given
command. -/
inductive LaunchOutcome where
  | busActivated (uris : List String)
  | spawned (cmd : SpawnCmd)
deriving DecidableEq, Repr

/-- Modelled from the spec: `dbus_launch` (in `exec/dbus.rs`, not part of the
sources) activates the application over the session bus with the supplied
URIs and returns, bypassing tokenization, terminal wrapping and GPU
environment injection (spec section 4.5 step 4). -/
def dbusLaunch (_e : DesktopEntry) (_env : Env) (uris : List String)
    (_preferNonDefaultGpu : Bool) : Except ExecError LaunchOutcome :=
  .ok (.busActivated uris)

/-- Mirrors `DesktopEntry::launch` in `src/exec/mod.rs`: when the session bus
connection succeeds and the entry is bus-actionable, launch over the bus;
otherwise fall back to `shell_launch`. -/
def launch (e : DesktopEntry) (env : Env) (uris : List String)
    (preferNonDefaultGpu : Bool) : Except ExecError LaunchOutcome :=
  if env.busReachable then
    if e.busActionable then dbusLaunch e env uris preferNonDefaultGpu
    else (shellLaunch e env uris preferNonDefaultGpu).map .spawned
  else (shellLaunch e env uris preferNonDefaultGpu).map .spawned

/-- Splits a string at semicolons, dropping empty pieces: the declared action
names of an entry's semicolon-separated `actions()` value. -/
def splitSemicolons (s : String) : List String :=
  (s.data.splitOn ';').map String.mk |>.filter (fun t => t ≠ "")

/-- The entry's declared action set, from its raw `actions()` value. -/
def declaredActions (e : DesktopEntry) : List String :=
  match e.actions with
  | some s => splitSemicolons s
  | none => []

/-- Modelled from the spec: the entry point `launch_action(action_name,
uris)` (spec section 4.5 step 1; not part of the sources) requires the action
name to exist in the entry's declared action set, else fails with
`ActionNotFound` naming the action and the entry path; then requires that
action to declare its own Exec key, else fails with `ActionExecKeyNotFound`;
then proceeds exactly as `launch` does with the action's exec template. -/
def launchAction (e : DesktopEntry) (env : Env) (actionName : String)
    (uris : List String) : Except ExecError LaunchOutcome :=
  if actionName ∈ declaredActions e then
    match e.actionExec actionName with
    | some exec =>
        if env.busReachable && e.busActionable then dbusLaunch e env uris false
        else (runExec e env exec uris false).map .spawned
    | none => .error (.ActionExecKeyNotFound actionName)
  else .error (.ActionNotFound actionName e.path)

/-- Filesystem with no symlinks and no existing paths. -/
def fsEmpty : Fs := ⟨fun _ => none, fun _ => false⟩

/-- GPU enumeration of a machine with no discoverable GPU. -/
def gpusNone : Gpus := ⟨false, none, none⟩

/-- Environment with a shell, no `LANG`, and no reachable session bus. -/
def plainEnv : Env := ⟨some "/bin/sh", none, false, fsEmpty, gpusNone⟩

/-- GPU injection touches only the environment pairs of a command: program,
arguments and working directory are unchanged. -/
theorem withNonDefaultGpu_fields (gs : Gpus) (c : SpawnCmd) :
    (withNonDefaultGpu gs c).program = c.program ∧
    (withNonDefaultGpu gs c).args = c.args ∧
    (withNonDefaultGpu gs c).cwd = c.cwd := by
  simp only [withNonDefaultGpu]
  repeat' split
  all_goals exact ⟨rfl, rfl, rfl⟩

/-- Shape of any command `runUnquoted` hands to spawn: the program is the
`SHELL` value, the arguments are `-c` followed by the space-joined
substituted arguments (prefixed by the detected terminal and its separator in
terminal mode), and no working directory is set. -/
theorem runUnquoted_ok_shape (e : DesktopEntry) (env : Env) (exec : String)
    (uris : List String) (g : Bool) (toks : List ArgOrFieldCode)
    (cmd : SpawnCmd)
    (hc : classify (splitAsciiWhitespace exec) = .ok toks)
    (h : runUnquoted e env exec uris g = .ok cmd) :
    env.shell = some cmd.program ∧
    cmd.args = ["-c",
      if e.terminal then
        (detectTerminal env.fs).1 ++ " " ++ (detectTerminal env.fs).2 ++ " " ++
          String.intercalate " " (getArgs e env uris toks)
      else String.intercalate " " (getArgs e env uris toks)] ∧
    cmd.cwd = none := by
  simp only [runUnquoted, hc] at h
  by_cases hemp : (getArgs e env uris toks).isEmpty
  · simp [hemp] at h
  · rw [if_neg (by simp [hemp])] at h
    cases hs : env.shell with
    | none => simp [hs] at h
    | some shell =>
        simp only [hs] at h
        injection h with h'
        subst h'
        cases g <;> cases ht : e.terminal <;>
          simp [ht, hs, withNonDefaultGpu_fields]

/-- Concrete entry for the C3 counterexample: its exec template holds the
deprecated field code %d and the entry is bus-actionable. -/
def entryC3 : DesktopEntry :=
  ⟨"/e.desktop", some "%d", none, fun _ => none, false, none, none,
   fun _ => none, true⟩

/-- Environment for the C3 counterexample: a session bus is reachable. -/
def envC3 : Env := ⟨some "/bin/sh", none, true, fsEmpty, gpusNone⟩

/-- Counterexample to C3 as stated: with a deprecated field code %d in the
exec string, a reachable session bus, and a bus-actionable entry, `launch`
activates over the bus and succeeds; the deprecated-field-code error that the
shell path would raise is not returned, because `launch` decides on bus
activation before any tokenization takes place. -/
theorem tokenization_after_bus_counterexample :
    entryC3.exec = some "%d" ∧
    envC3.busReachable = true ∧
    entryC3.busActionable = true ∧
    shellLaunch entryC3 envC3 [] false = .error (.DeprecatedFieldCode "%d") ∧
    launch entryC3 envC3 [] false = .ok (.busActivated []) :=
  ⟨rfl, rfl, rfl, rfl, rfl⟩

/-- C3 amended: the bus-activation decision comes first, not after
tokenization. When a session bus is reachable and the entry is
bus-actionable, `launch` activates via the bus and tokenization never runs,
so deprecated/unknown/unmatched-quote errors are not returned on that path;
only when the bus is unreachable or the entry is not bus-actionable does
`launch` run the shell path, whose tokenization and classification errors it
then propagates verbatim. -/
theorem tokenization_only_on_shell_path :
    ∀ (e : DesktopEntry) (env : Env) (uris : List String) (g : Bool),
    (env.busReachable = true → e.busActionable = true →
       launch e env uris g = .ok (.busActivated uris)) ∧
    (env.busReachable = false ∨ e.busActionable = false →
       launch e env uris g =
         (shellLaunch e env uris g).map .spawned) := by
  intro e env uris g
  constructor
  · intro hb ha
    simp [launch, hb, ha, dbusLaunch]
  · intro h
    rcases h with h | h
    · simp [launch, h]
    · cases hb : env.busReachable <;> simp [launch, hb, h]

/-- Witness for C3 amended: both clauses evaluated at the concrete entry of
the counterexample, against a reachable and an unreachable bus. -/
theorem tokenization_only_on_shell_path_witness :
    launch entryC3 envC3 [] false = .ok (.busActivated []) ∧
    launch entryC3 plainEnv [] false =
      (shellLaunch entryC3 plainEnv [] false).map .spawned :=
  ⟨(tokenization_only_on_shell_path entryC3 envC3 [] false).1 rfl rfl,
   (tokenization_only_on_shell_path entryC3 plainEnv [] false).2 (Or.inl rfl)⟩

/-- Concrete entry for the C4 counterexample: it declares a working
directory and a plain exec template. -/
def entryC4 : DesktopEntry :=
  ⟨"/e.desktop", some "app", none, fun _ => none, false, some "/tmp/wd",
   none, fun _ => none, false⟩

/-- Counterexample to C4 as stated: the entry declares working directory
"/tmp/wd", the launch reaches the process-spawn path, and yet the spawned
command has no working directory set — `shell_launch` never calls
`current_dir`. -/
theorem working_directory_counterexample :
    entryC4.workingDirectory = some "/tmp/wd" ∧
    shellLaunch entryC4 plainEnv [] false =
      .ok ⟨"/bin/sh", ["-c", "app"], [], none⟩ ∧
    (⟨"/bin/sh", ["-c", "app"], [], none⟩ : SpawnCmd).cwd ≠
      entryC4.workingDirectory :=
  ⟨rfl, rfl, by decide⟩

/-- C4 amended: the shell-launch path never sets the child's working
directory; the entry's declared path is ignored and every spawned command
inherits the parent's working directory. -/
theorem shell_launch_never_sets_cwd :
    ∀ (e : DesktopEntry) (env : Env) (uris : List String) (g : Bool)
      (cmd : SpawnCmd),
    shellLaunch e env uris g = .ok cmd → cmd.cwd = none := by
  intro e env uris g cmd h
  simp only [shellLaunch] at h
  cases he : e.exec with
  | none => simp [he] at h
  | some exec =>
      simp only [he, runExec] at h
      cases hu : unquote exec with
      | error err => simp [hu] at h
      | ok stripped =>
          simp only [hu] at h
          cases hc : classify (splitAsciiWhitespace stripped) with
          | error err => simp [runUnquoted, hc] at h
          | ok toks => exact (runUnquoted_ok_shape e env stripped uris g toks
              cmd hc h).2.2

/-- Witness for C4 amended: the concrete spawned command of the
counterexample entry indeed has no working directory. -/
theorem shell_launch_never_sets_cwd_witness :
    (⟨"/bin/sh", ["-c", "app"], [], none⟩ : SpawnCmd).cwd = none :=
  shell_launch_never_sets_cwd entryC4 plainEnv [] false _ rfl

/-- Removing the first character of a string that starts with a double quote,
stated for a string built as quote-content-quote. -/
theorem stripQuoteFront_wrapped (t : String) :
    stripQuoteFront ("\"" ++ t ++ "\"") = some (t ++ "\"") := rfl

/-- Removing the final double quote of a string that ends in one. -/
theorem stripQuoteBack_appended (t : String) :
    stripQuoteBack (t ++ "\"") = some t := by
  show stripQuoteBack ⟨t.data ++ ['"']⟩ = some t
  simp only [stripQuoteBack, List.reverse_append, List.reverse_cons,
    List.reverse_nil, List.nil_append, List.singleton_append, if_true,
    List.reverse_reverse]

/-- C5: if the whole exec string is wrapped in a pair of double quotes
exactly one matching pair is stripped before tokenizing (the launch proceeds
on the bare content), and a string with an opening double quote whose
remainder has no closing quote makes the launch fail with an unmatched-quote
error carrying the original string. -/
theorem quote_stripping :
    ∀ s t : String,
    (s = "\"" ++ t ++ "\"" →
       unquote s = .ok t ∧
       ∀ (e : DesktopEntry) (env : Env) (uris : List String) (g : Bool),
         e.exec = some s →
         shellLaunch e env uris g = runUnquoted e env t uris g) ∧
    (∀ r : String, stripQuoteFront s = some r → stripQuoteBack r = none →
       unquote s = .error (.UnmatchedQuote s) ∧
       ∀ (e : DesktopEntry) (env : Env) (uris : List String) (g : Bool),
         e.exec = some s →
         shellLaunch e env uris g = .error (.UnmatchedQuote s)) := by
  intro s t
  constructor
  · rintro rfl
    have hq : unquote ("\"" ++ t ++ "\"") = .ok t := by
      simp only [unquote, stripQuoteFront_wrapped, stripQuoteBack_appended]
    refine ⟨hq, ?_⟩
    intro e env uris g he
    simp only [shellLaunch, he, runExec, hq]
  · intro r hf hb
    have hq : unquote s = .error (.UnmatchedQuote s) := by
      simp only [unquote, hf, hb]
    refine ⟨hq, ?_⟩
    intro e env uris g he
    simp only [shellLaunch, he, runExec, hq]

/-- Witness for C5: both clauses evaluated at the concrete strings
quote-app-quote (one pair stripped) and quote-app (quote never closed). -/
theorem quote_stripping_witness :
    unquote "\"app\"" = .ok "app" ∧
    unquote "\"app" = .error (.UnmatchedQuote "\"app") :=
  ⟨((quote_stripping "\"app\"" "app").1 rfl).1,
   ((quote_stripping "\"app" "app").2 "app" rfl rfl).1⟩

/-- C6: whenever substitution turns the classified tokens into an empty
argument list, the launch fails with the EmptyExecString error. -/
theorem empty_substitution_fails :
    ∀ (e : DesktopEntry) (env : Env) (uris : List String) (g : Bool)
      (exec stripped : String) (toks : List ArgOrFieldCode),
    e.exec = some exec →
    unquote exec = .ok stripped →
    classify (splitAsciiWhitespace stripped) = .ok toks →
    getArgs e env uris toks = [] →
    shellLaunch e env uris g = .error .EmptyExecString := by
  intro e env uris g exec stripped toks he hu hc hempty
  simp only [shellLaunch, he, runExec, hu, runUnquoted, hc, hempty,
    List.isEmpty_nil, if_true]

/-- Witness for C6: an entry whose exec template is just %f, launched with an
empty URI list, fails with EmptyExecString. -/
theorem empty_substitution_fails_witness :
    shellLaunch ⟨"/e.desktop", some "%f", none, fun _ => none, false, none,
                 none, fun _ => none, false⟩ plainEnv [] false =
      .error .EmptyExecString :=
  empty_substitution_fails _ plainEnv [] false "%f" "%f" [.SingleFileName]
    rfl rfl rfl rfl

/-- C7: the entry point `launchAction`: an action name outside the entry's
declared action set fails with an action-not-found error naming the action
and the entry path, and a declared action lacking its own Exec key fails with
an action-exec-key-not-found error. -/
theorem launch_action_errors :
    ∀ (e : DesktopEntry) (env : Env) (actionName : String)
      (uris : List String),
    (actionName ∉ declaredActions e →
       launchAction e env actionName uris =
         .error (.ActionNotFound actionName e.path)) ∧
    (actionName ∈ declaredActions e → e.actionExec actionName = none →
       launchAction e env actionName uris =
         .error (.ActionExecKeyNotFound actionName)) := by
  intro e env actionName uris
  constructor
  · intro h
    simp [launchAction, h]
  · intro h hx
    simp [launchAction, h, hx]

/-- Concrete entry for the C7 witness: one declared action, with no Exec key
of its own. -/
def entryC7 : DesktopEntry :=
  ⟨"/e.desktop", some "app", none, fun _ => none, false, none,
   some "new-window;", fun _ => none, false⟩

/-- Witness for C7: both error paths evaluated at the concrete entry, for a
nonexistent action name and for the declared action without an Exec key. -/
theorem launch_action_errors_witness :
    launchAction entryC7 plainEnv "missing" [] =
      .error (.ActionNotFound "missing" "/e.desktop") ∧
    launchAction entryC7 plainEnv "new-window" [] =
      .error (.ActionExecKeyNotFound "new-window") :=
  ⟨(launch_action_errors entryC7 plainEnv "missing" []).1 (by decide),
   (launch_action_errors entryC7 plainEnv "new-window" []).2 (by decide) rfl⟩

/-- C9: terminal detection is total (it returns a descriptor in every
filesystem state): when the x-terminal-emulator symlink resolves, the
returned path follows it one further level (falling back to the first
resolution) and the separator is "--" exactly when the first resolution's
name contains "gnome-terminal", else "-e"; when the symlink is absent, the
result is the fixed gnome-terminal path with "--" when that path exists on
disk, else the fixed konsole path with "-e" unconditionally, its existence
never checked. -/
theorem terminal_detection :
    ∀ fs : Fs,
    (∀ found : String, fs.readLink xTerminalEmulatorSymlink = some found →
       detectTerminal fs = ((fs.readLink found).getD found,
         if strContains found "gnome-terminal" then "--" else "-e")) ∧
    (fs.readLink xTerminalEmulatorSymlink = none →
       detectTerminal fs =
         if fs.pathExists "/usr/bin/gnome-terminal" then
           ("/usr/bin/gnome-terminal", "--")
         else ("/usr/bin/konsole", "-e")) := by
  intro fs
  constructor
  · intro found h
    simp [detectTerminal, h]
  · intro h
    simp [detectTerminal, h]

/-- Filesystem for the C9 witness: the symlink resolves to an alternatives
entry, which resolves further to xterm; nothing else exists. -/
def fsC9 : Fs :=
  ⟨fun p => if p = xTerminalEmulatorSymlink then some "/etc/alternatives/xte"
            else if p = "/etc/alternatives/xte" then some "/usr/bin/xterm"
            else none,
   fun _ => false⟩

/-- Witness for C9: both clauses evaluated on concrete filesystems, one where
the symlink resolves (followed one further level, separator "-e") and one
with no symlink and no gnome-terminal on disk (konsole fallback). -/
theorem terminal_detection_witness :
    detectTerminal fsC9 = ((fsC9.readLink "/etc/alternatives/xte").getD
        "/etc/alternatives/xte",
      if strContains "/etc/alternatives/xte" "gnome-terminal" then "--"
      else "-e") ∧
    detectTerminal fsEmpty =
      (if fsEmpty.pathExists "/usr/bin/gnome-terminal" then
         ("/usr/bin/gnome-terminal", "--")
       else ("/usr/bin/konsole", "-e")) :=
  ⟨(terminal_detection fsC9).1 "/etc/alternatives/xte" rfl,
   (terminal_detection fsEmpty).2 rfl⟩

/-- C10: every command the shell-launch path hands to spawn runs the `SHELL`
executable with argument list exactly `-c` followed by one single string: the
substituted arguments joined by single spaces, prefixed by the detected
terminal path and separator in terminal mode. Argument boundaries of combined
substitutions are therefore not preserved at spawn; the shell re-tokenizes
the joined string. -/
theorem spawn_invokes_shell_dash_c :
    ∀ (e : DesktopEntry) (env : Env) (uris : List String) (g : Bool)
      (exec stripped : String) (toks : List ArgOrFieldCode) (cmd : SpawnCmd),
    e.exec = some exec →
    unquote exec = .ok stripped →
    classify (splitAsciiWhitespace stripped) = .ok toks →
    shellLaunch e env uris g = .ok cmd →
    env.shell = some cmd.program ∧
    cmd.args = ["-c",
      if e.terminal then
        (detectTerminal env.fs).1 ++ " " ++ (detectTerminal env.fs).2 ++ " " ++
          String.intercalate " " (getArgs e env uris toks)
      else String.intercalate " " (getArgs e env uris toks)] := by
  intro e env uris g exec stripped toks cmd he hu hc h
  simp only [shellLaunch, he, runExec, hu] at h
  exact ⟨(runUnquoted_ok_shape e env stripped uris g toks cmd hc h).1,
         (runUnquoted_ok_shape e env stripped uris g toks cmd hc h).2.1⟩

/-- Entry for the C10 witness: terminal-mode off, exec `app %F`. -/
def entryC10 : DesktopEntry :=
  ⟨"/e.desktop", some "app %F", none, fun _ => none, false, none, none,
   fun _ => none, false⟩

/-- Witness for C10: the concrete spawned command for exec `app %F` with URIs
"a" and "b" is the shell run with `-c` and the single joined string. -/
theorem spawn_invokes_shell_dash_c_witness :
    plainEnv.shell =
      some (SpawnCmd.mk "/bin/sh" ["-c", "app a b"] [] none).program ∧
    (SpawnCmd.mk "/bin/sh" ["-c", "app a b"] [] none).args = ["-c",
      if entryC10.terminal then
        (detectTerminal plainEnv.fs).1 ++ " " ++
          (detectTerminal plainEnv.fs).2 ++ " " ++
          String.intercalate " "
            (getArgs entryC10 plainEnv ["a", "b"] [.Arg "app", .FileList])
      else String.intercalate " "
        (getArgs entryC10 plainEnv ["a", "b"] [.Arg "app", .FileList])] :=
  spawn_invokes_shell_dash_c entryC10 plainEnv ["a", "b"] false "app %F"
    "app %F" [.Arg "app", .FileList] (SpawnCmd.mk "/bin/sh" ["-c", "app a b"]
    [] none) rfl rfl rfl rfl
